import Mathlib

/-!
Verification of the JaCoCo coverage-gate checker (`tools/check_coverage.py`).

The script is shallowly embedded as follows:
* an XML document is a tree of elements (`XmlNode`), each with a tag, an
  attribute list and children; `root.findall('.//counter')` becomes
  `findCounters`, which collects every descendant element (any depth, in
  document order) whose tag is `counter`;
* Python's `int(str)` (which raises `ValueError` on a non-integer string,
  caught by the bare `except Exception` and turned into a `None` return)
  becomes the `Option`-valued `parsePyInt`; `int(counter.get(attr, 0))`
  becomes `pyInt`;
* the accumulation loop of `parse_jacoco_xml` becomes `processCounters`
  over `Totals`, aborting with `none` at the first counter whose `covered`
  or `missed` attribute fails `int()` (the exception aborts the function);
* Python float arithmetic is modelled by exact rationals (`ℚ`);
* `main` is modelled as a function of the already-parsed CLI inputs
  (file existence, the `ET.parse` outcome as an `Option XmlNode`, the
  threshold, metric and verbose flag), returning the exit code, the list
  of messages printed together with the channel each went to (Python's
  `print()` writes to standard output), and whether `parse_jacoco_xml`
  was ever invoked.
-/

namespace CheckCoverage

/-- An XML element: tag, attributes, child elements. -/
inductive XmlNode where
  | elem (tag : String) (attrs : List (String × String)) (children : List XmlNode)

/-- All descendant elements of the nodes of a list, in document order:
each node is followed by its own descendants (preorder), as enumerated by
`findall('.//...')`. -/
def descList : List XmlNode → List XmlNode
  | [] => []
  | XmlNode.elem t a children :: cs =>
      XmlNode.elem t a children :: (descList children ++ descList cs)

/-- The tag of an element. -/
def tagOf : XmlNode → String
  | XmlNode.elem t _ _ => t

/-- The children of an element. -/
def childrenOf : XmlNode → List XmlNode
  | XmlNode.elem _ _ children => children

/-- `element.get(key)`: the value of the attribute named `key`, if present. -/
def getAttr (n : XmlNode) (key : String) : Option String :=
  match n with
  | XmlNode.elem _ attrs _ => (attrs.find? fun a => decide (a.1 = key)).map Prod.snd

/-- `root.findall('.//counter')`: every descendant element (at any depth,
the root itself excluded) whose tag is `counter`, in document order. -/
def findCounters (root : XmlNode) : List XmlNode :=
  (descList (childrenOf root)).filter fun c => decide (tagOf c = "counter")

/-- A non-empty all-digit string, as a number. -/
def parseDigits (cs : List Char) : Option Nat :=
  if cs = [] then none
  else if cs.all Char.isDigit then
    some (cs.foldl (fun a c => a * 10 + (c.toNat - 48)) 0)
  else none

/-- Python `int(s)` on a string: surrounding whitespace is stripped, an
optional sign precedes a non-empty digit string; anything else raises
`ValueError`, modelled as `none`. -/
def parsePyInt (s : String) : Option Int :=
  let cs := s.toList.dropWhile Char.isWhitespace
  let cs2 := (cs.reverse.dropWhile Char.isWhitespace).reverse
  match cs2 with
  | '+' :: ds => (parseDigits ds).map Int.ofNat
  | '-' :: ds => (parseDigits ds).map fun n => -(n : Int)
  | ds => (parseDigits ds).map Int.ofNat

/-- `int(counter.get(attr, 0))`: a missing attribute defaults to the
integer `0`; a present attribute is parsed with Python `int`. -/
def pyInt : Option String → Option Int
  | none => some 0
  | some s => parsePyInt s

/-- The six running totals of `parse_jacoco_xml`. -/
structure Totals where
  ic : Int
  im : Int
  lc : Int
  lm : Int
  bc : Int
  bm : Int
deriving DecidableEq

/-- One iteration's dispatch on `counter.get('type')`: the three tracked
kinds accumulate, anything else falls through unchanged. -/
def addCounter (t : Totals) (ctype : Option String) (covered missed : Int) : Totals :=
  if ctype = some "INSTRUCTION" then
    { t with ic := t.ic + covered, im := t.im + missed }
  else if ctype = some "LINE" then
    { t with lc := t.lc + covered, lm := t.lm + missed }
  else if ctype = some "BRANCH" then
    { t with bc := t.bc + covered, bm := t.bm + missed }
  else t

/-- One loop iteration: `covered` and `missed` are converted with `int`
before the type dispatch, so an unparsable attribute aborts the parse also
on counters of untracked kinds. -/
def processCounter (t : Totals) (c : XmlNode) : Option Totals :=
  match pyInt (getAttr c "covered"), pyInt (getAttr c "missed") with
  | some covered, some missed => some (addCounter t (getAttr c "type") covered missed)
  | _, _ => none

/-- The `for counter in root.findall('.//counter')` loop; the first raised
`ValueError` propagates out. -/
def processCounters : Totals → List XmlNode → Option Totals
  | t, [] => some t
  | t, c :: cs =>
    match processCounter t c with
    | some t1 => processCounters t1 cs
    | none => none

/-- The dictionary returned by `parse_jacoco_xml`. -/
structure CoverageData where
  instruction_coverage : ℚ
  line_coverage : ℚ
  branch_coverage : ℚ
  total_instructions : Int
  total_lines : Int
  total_branches : Int
  covered_instructions : Int
  covered_lines : Int
  covered_branches : Int
deriving DecidableEq

/-- Lines 43-61 of the script: totals and percentages from the six sums
(`covered / total * 100` when the total is positive, else `0`). -/
def buildCoverageData (t : Totals) : CoverageData :=
  let instruction_total : Int := t.ic + t.im
  let line_total : Int := t.lc + t.lm
  let branch_total : Int := t.bc + t.bm
  { instruction_coverage :=
      if instruction_total > 0 then (t.ic : ℚ) / (instruction_total : ℚ) * 100 else 0
    line_coverage :=
      if line_total > 0 then (t.lc : ℚ) / (line_total : ℚ) * 100 else 0
    branch_coverage :=
      if branch_total > 0 then (t.bc : ℚ) / (branch_total : ℚ) * 100 else 0
    total_instructions := instruction_total
    total_lines := line_total
    total_branches := branch_total
    covered_instructions := t.ic
    covered_lines := t.lc
    covered_branches := t.bc }

/-- `parse_jacoco_xml` on an already well-formed document: run the counter
loop from all-zero totals; a counter whose attributes fail `int()` makes
the whole function return `None`. -/
def parse_jacoco_xml (root : XmlNode) : Option CoverageData :=
  match processCounters ⟨0, 0, 0, 0, 0, 0⟩ (findCounters root) with
  | none => none
  | some t => some (buildCoverageData t)

/-- `check_coverage_threshold`: select the percentage for the metric (an
unknown metric prints an error and returns `False`), then compare against
`threshold_percent * 100`. -/
def check_coverage_threshold (cd : CoverageData) (threshold_percent : ℚ)
    (metric : String) : Bool :=
  let actual : Option ℚ :=
    if metric = "line" then some cd.line_coverage
    else if metric = "instruction" then some cd.instruction_coverage
    else if metric = "branch" then some cd.branch_coverage
    else none
  match actual with
  | none => false
  | some actual_coverage => decide (actual_coverage ≥ threshold_percent * 100)

/-- Where a message is printed. Python `print()` writes to standard output. -/
inductive OutChannel where
  | stdout
  | stderr
deriving DecidableEq

/-- The messages `main` can print (message identity, not full text;
`noCoverageData` stands for the whole warning block of lines 160-163,
diagnostic hints included). -/
inductive Msg where
  | fileNotFound
  | thresholdOutOfRange
  | analyzing
  | coverageReport
  | failedToParse
  | noCoverageData
  | gatePassed
  | gateFailed
deriving DecidableEq

/-- Outcome of one invocation of `main`: the exit code, the printed
messages with their channels in order, and whether `parse_jacoco_xml` was
invoked at all. -/
structure MainResult where
  exitCode : Nat
  events : List (OutChannel × Msg)
  parseAttempted : Bool
deriving DecidableEq

/-- `main` as a function of the already-parsed CLI inputs: whether the
report file exists, the outcome of `ET.parse` (`none` on a malformed
file; composed with `parse_jacoco_xml` via `Option.bind`), the threshold,
the metric and the verbose flag. -/
def main (fileExists : Bool) (doc : Option XmlNode) (threshold : ℚ)
    (metric : String) (verbose : Bool) : MainResult :=
  if fileExists = false then
    { exitCode := 1
      events := [(OutChannel.stdout, Msg.fileNotFound)]
      parseAttempted := false }
  else if ¬ (0 ≤ threshold ∧ threshold ≤ 1) then
    { exitCode := 1
      events := [(OutChannel.stdout, Msg.thresholdOutOfRange)]
      parseAttempted := false }
  else
    match doc.bind parse_jacoco_xml with
    | none =>
      { exitCode := 1
        events := [(OutChannel.stdout, Msg.analyzing), (OutChannel.stdout, Msg.failedToParse)]
        parseAttempted := true }
    | some cd =>
      let printedReport : Bool := verbose || decide (cd.total_lines = 0)
      let baseEvents :=
        (OutChannel.stdout, Msg.analyzing) ::
          (if printedReport then [(OutChannel.stdout, Msg.coverageReport)] else [])
      if cd.total_lines = 0 then
        { exitCode := 1
          events := baseEvents ++ [(OutChannel.stdout, Msg.noCoverageData)]
          parseAttempted := true }
      else
        let passed := check_coverage_threshold cd threshold metric
        { exitCode := if passed then 0 else 1
          events := baseEvents ++
            [(OutChannel.stdout, if passed then Msg.gatePassed else Msg.gateFailed)]
          parseAttempted := true }

/-- The spec's `coverage_ratio` of an aggregate for a selected metric:
`covered_total / (covered_total + missed_total)`, zero by convention when
the denominator is zero.  On outputs of `parse_jacoco_xml` the stored
total equals `covered + missed`, so the denominator is the stored total. -/
def coverage_fraction (cd : CoverageData) (metric : String) : ℚ :=
  if metric = "line" then
    (if cd.total_lines > 0 then (cd.covered_lines : ℚ) / (cd.total_lines : ℚ) else 0)
  else if metric = "instruction" then
    (if cd.total_instructions > 0 then
      (cd.covered_instructions : ℚ) / (cd.total_instructions : ℚ) else 0)
  else if metric = "branch" then
    (if cd.total_branches > 0 then
      (cd.covered_branches : ℚ) / (cd.total_branches : ℚ) else 0)
  else 0

/-- Sum of one attribute (with missing values defaulting to `0`) over the
counters of one kind in a list of counter nodes. -/
def sumKindAttr (kind attr : String) (cs : List XmlNode) : Int :=
  ((cs.filter fun c => decide (getAttr c "type" = some kind)).map
    (fun c => (pyInt (getAttr c attr)).getD 0)).sum

/-- Sum of the `covered` attributes of all counter nodes of one kind
anywhere in the document. -/
def kindCovered (kind : String) (root : XmlNode) : Int :=
  sumKindAttr kind "covered" (findCounters root)

/-- Sum of the `missed` attributes of all counter nodes of one kind
anywhere in the document. -/
def kindMissed (kind : String) (root : XmlNode) : Int :=
  sumKindAttr kind "missed" (findCounters root)

lemma sumKindAttr_nil (kind attr : String) : sumKindAttr kind attr [] = 0 := rfl

lemma sumKindAttr_cons (kind attr : String) (c : XmlNode) (cs : List XmlNode) :
    sumKindAttr kind attr (c :: cs) =
      (if getAttr c "type" = some kind then (pyInt (getAttr c attr)).getD 0 else 0) +
        sumKindAttr kind attr cs := by
  by_cases h : getAttr c "type" = some kind <;>
    simp [sumKindAttr, List.filter_cons, h]

lemma addCounter_ic (t : Totals) (ty : Option String) (cv ms : Int) :
    (addCounter t ty cv ms).ic = t.ic + (if ty = some "INSTRUCTION" then cv else 0) := by
  unfold addCounter
  split_ifs <;> simp_all

lemma addCounter_im (t : Totals) (ty : Option String) (cv ms : Int) :
    (addCounter t ty cv ms).im = t.im + (if ty = some "INSTRUCTION" then ms else 0) := by
  unfold addCounter
  split_ifs <;> simp_all

lemma addCounter_lc (t : Totals) (ty : Option String) (cv ms : Int) :
    (addCounter t ty cv ms).lc = t.lc + (if ty = some "LINE" then cv else 0) := by
  unfold addCounter
  split_ifs <;> simp_all

lemma addCounter_lm (t : Totals) (ty : Option String) (cv ms : Int) :
    (addCounter t ty cv ms).lm = t.lm + (if ty = some "LINE" then ms else 0) := by
  unfold addCounter
  split_ifs <;> simp_all

lemma addCounter_bc (t : Totals) (ty : Option String) (cv ms : Int) :
    (addCounter t ty cv ms).bc = t.bc + (if ty = some "BRANCH" then cv else 0) := by
  unfold addCounter
  split_ifs <;> simp_all

lemma addCounter_bm (t : Totals) (ty : Option String) (cv ms : Int) :
    (addCounter t ty cv ms).bm = t.bm + (if ty = some "BRANCH" then ms else 0) := by
  unfold addCounter
  split_ifs <;> simp_all

lemma processCounter_some (t t1 : Totals) (c : XmlNode)
    (h : processCounter t c = some t1) :
    ∃ cv ms, pyInt (getAttr c "covered") = some cv ∧
      pyInt (getAttr c "missed") = some ms ∧
      t1 = addCounter t (getAttr c "type") cv ms := by
  unfold processCounter at h
  cases hc : pyInt (getAttr c "covered") <;>
    cases hm : pyInt (getAttr c "missed") <;>
      rw [hc, hm] at h <;> simp at h
  exact ⟨_, _, rfl, rfl, h.symm⟩

/-- The loop's totals are exactly the per-kind sums of the counter list. -/
lemma processCounters_totals :
    ∀ (cs : List XmlNode) (t t' : Totals), processCounters t cs = some t' →
      t'.ic = t.ic + sumKindAttr "INSTRUCTION" "covered" cs ∧
      t'.im = t.im + sumKindAttr "INSTRUCTION" "missed" cs ∧
      t'.lc = t.lc + sumKindAttr "LINE" "covered" cs ∧
      t'.lm = t.lm + sumKindAttr "LINE" "missed" cs ∧
      t'.bc = t.bc + sumKindAttr "BRANCH" "covered" cs ∧
      t'.bm = t.bm + sumKindAttr "BRANCH" "missed" cs := by
  intro cs
  induction cs with
  | nil =>
    intro t t' h
    simp only [processCounters, Option.some.injEq] at h
    subst h
    simp [sumKindAttr_nil]
  | cons c cs ih =>
    intro t t' h
    simp only [processCounters] at h
    cases hpc : processCounter t c with
    | none => rw [hpc] at h; cases h
    | some t1 =>
      rw [hpc] at h
      obtain ⟨cv, ms, hcv, hms, ht1⟩ := processCounter_some t t1 c hpc
      subst ht1
      obtain ⟨e1, e2, e3, e4, e5, e6⟩ := ih _ _ h
      rw [addCounter_ic] at e1
      rw [addCounter_im] at e2
      rw [addCounter_lc] at e3
      rw [addCounter_lm] at e4
      rw [addCounter_bc] at e5
      rw [addCounter_bm] at e6
      refine ⟨?_, ?_, ?_, ?_, ?_, ?_⟩ <;>
        simp only [sumKindAttr_cons, hcv, hms, Option.getD_some] <;>
          first
            | (rw [e1]; ring)
            | (rw [e2]; ring)
            | (rw [e3]; ring)
            | (rw [e4]; ring)
            | (rw [e5]; ring)
            | (rw [e6]; ring)

/-- A counter with an unparsable `covered` or `missed` attribute anywhere
in the list makes the whole loop raise, whatever the accumulator. -/
lemma processCounters_isNone :
    ∀ (cs : List XmlNode) (c : XmlNode), c ∈ cs →
      (pyInt (getAttr c "covered") = none ∨ pyInt (getAttr c "missed") = none) →
      ∀ t, processCounters t cs = none := by
  intro cs
  induction cs with
  | nil => intro c hc; simp at hc
  | cons a cs ih =>
    intro c hc hbad t
    rcases List.mem_cons.mp hc with rfl | hmem
    · have hnone : processCounter t c = none := by
        unfold processCounter
        rcases hbad with hb | hb
        · cases hm : pyInt (getAttr c "missed") <;> rw [hb]
        · cases hcv : pyInt (getAttr c "covered") <;> rw [hb]
      simp [processCounters, hnone]
    · simp only [processCounters]
      cases hpc : processCounter t a with
      | none => rfl
      | some t1 => exact ih c hmem hbad t1

/-- A counter of an untracked kind whose attributes parse leaves the
accumulator unchanged. -/
lemma processCounter_untracked (t : Totals) (c : XmlNode)
    (hI : getAttr c "type" ≠ some "INSTRUCTION")
    (hL : getAttr c "type" ≠ some "LINE")
    (hB : getAttr c "type" ≠ some "BRANCH")
    (hcv : pyInt (getAttr c "covered") ≠ none)
    (hms : pyInt (getAttr c "missed") ≠ none) :
    processCounter t c = some t := by
  cases hc : pyInt (getAttr c "covered") with
  | none => exact absurd hc hcv
  | some cv =>
    cases hm : pyInt (getAttr c "missed") with
    | none => exact absurd hm hms
    | some ms =>
      unfold processCounter
      rw [hc, hm]
      simp [addCounter, hI, hL, hB]

/-- Dropping a counter that never changes the accumulator from anywhere in
the list does not change the loop's outcome. -/
lemma processCounters_insert (c : XmlNode) (ys : List XmlNode)
    (hskip : ∀ t, processCounter t c = some t) :
    ∀ (xs : List XmlNode) (t : Totals),
      processCounters t (xs ++ c :: ys) = processCounters t (xs ++ ys) := by
  intro xs
  induction xs with
  | nil =>
    intro t
    simp only [List.nil_append, processCounters, hskip t]
  | cons x xs ih =>
    intro t
    simp only [List.cons_append, processCounters]
    cases hpc : processCounter t x with
    | none => rfl
    | some t1 => exact ih t1

/-- Shape of a successful parse. -/
lemma parse_some_elim (root : XmlNode) (cd : CoverageData)
    (hp : parse_jacoco_xml root = some cd) :
    ∃ t, processCounters ⟨0, 0, 0, 0, 0, 0⟩ (findCounters root) = some t ∧
      cd = buildCoverageData t := by
  unfold parse_jacoco_xml at hp
  cases hpc : processCounters ⟨0, 0, 0, 0, 0, 0⟩ (findCounters root) with
  | none => rw [hpc] at hp; cases hp
  | some t =>
    rw [hpc] at hp
    simp only [Option.some.injEq] at hp
    exact ⟨t, rfl, hp.symm⟩

/-- The percentage expression of the script: bounded by `[0, 100]` for
non-negative counts, and zero when the denominator is zero. -/
lemma pct_facts (cov mis : Int) (hc : 0 ≤ cov) (hm : 0 ≤ mis) :
    0 ≤ (if cov + mis > 0 then (cov : ℚ) / ((cov + mis : Int) : ℚ) * 100 else 0) ∧
    (if cov + mis > 0 then (cov : ℚ) / ((cov + mis : Int) : ℚ) * 100 else 0) ≤ 100 ∧
    (cov + mis = 0 →
      (if cov + mis > 0 then (cov : ℚ) / ((cov + mis : Int) : ℚ) * 100 else 0) = 0) := by
  by_cases hpos : cov + mis > 0
  · rw [if_pos hpos]
    have hden : (0 : ℚ) < ((cov + mis : Int) : ℚ) := by exact_mod_cast hpos
    have hcq : (0 : ℚ) ≤ (cov : ℚ) := by exact_mod_cast hc
    have hle : (cov : ℚ) ≤ ((cov + mis : Int) : ℚ) := by
      push_cast
      linarith [(show (0 : ℚ) ≤ (mis : ℚ) by exact_mod_cast hm)]
    have hfrac : (cov : ℚ) / ((cov + mis : Int) : ℚ) ≤ 1 := (div_le_one hden).mpr hle
    have hfrac0 : 0 ≤ (cov : ℚ) / ((cov + mis : Int) : ℚ) := div_nonneg hcq hden.le
    refine ⟨by linarith, by linarith, ?_⟩
    intro h0
    omega
  · rw [if_neg hpos]
    exact ⟨le_refl 0, by norm_num, fun _ => rfl⟩

/-- Per-kind attribute sums are non-negative when every counter's parsed
attribute value is. -/
lemma sumKindAttr_nonneg (kind attr : String) (cs : List XmlNode)
    (h : ∀ c ∈ cs, 0 ≤ (pyInt (getAttr c attr)).getD 0) :
    0 ≤ sumKindAttr kind attr cs := by
  unfold sumKindAttr
  apply List.sum_nonneg
  intro x hx
  simp only [List.mem_map] at hx
  obtain ⟨c, hcmem, rfl⟩ := hx
  exact h c (List.mem_of_mem_filter hcmem)

/-- An empty report: no counters at all. -/
def rootE : XmlNode := XmlNode.elem "report" [] []

/-- The aggregate of the empty report: all totals and percentages zero. -/
def cdE : CoverageData := ⟨0, 0, 0, 0, 0, 0, 0, 0, 0⟩

lemma findCounters_rootE : findCounters rootE = [] := by
  simp [findCounters, rootE, childrenOf, descList]

lemma parse_rootE : parse_jacoco_xml rootE = some cdE := by
  unfold parse_jacoco_xml
  rw [findCounters_rootE]
  rfl

/-- A LINE counter with `covered="0" missed="1"`. -/
def cntL0 : XmlNode :=
  XmlNode.elem "counter" [("type", "LINE"), ("covered", "0"), ("missed", "1")] []

/-- A report with one line missed and none covered. -/
def rootL : XmlNode := XmlNode.elem "report" [] [cntL0]

/-- The aggregate of `rootL`: one line in total, 0% line coverage. -/
def cdL : CoverageData := ⟨0, 0, 0, 0, 1, 0, 0, 0, 0⟩

lemma findCounters_rootL : findCounters rootL = [cntL0] := by
  simp [findCounters, rootL, cntL0, childrenOf, descList, tagOf]

lemma parse_rootL : parse_jacoco_xml rootL = some cdL := by
  unfold parse_jacoco_xml
  rw [findCounters_rootL]
  have hpc : processCounters ⟨0, 0, 0, 0, 0, 0⟩ [cntL0] = some ⟨0, 0, 0, 1, 0, 0⟩ := by
    decide
  rw [hpc]
  simp only [buildCoverageData, cdL, Option.some.injEq, CoverageData.mk.injEq]
  norm_num

/-- A METHOD counter whose `covered` attribute is not an integer. -/
def cntM : XmlNode :=
  XmlNode.elem "counter" [("type", "METHOD"), ("covered", "x"), ("missed", "1")] []

/-- A report whose only counter is the malformed METHOD counter. -/
def rootM : XmlNode := XmlNode.elem "report" [] [cntM]

lemma findCounters_rootM : findCounters rootM = [cntM] := by
  simp [findCounters, rootM, cntM, childrenOf, descList, tagOf]

/-- A METHOD counter with well-formed integer attributes. -/
def cntMg : XmlNode :=
  XmlNode.elem "counter" [("type", "METHOD"), ("covered", "3"), ("missed", "4")] []

/-- A LINE counter with `covered="1" missed="1"`. -/
def cntL1 : XmlNode :=
  XmlNode.elem "counter" [("type", "LINE"), ("covered", "1"), ("missed", "1")] []

/-- A report holding a METHOD counter next to a LINE counter. -/
def rootML : XmlNode := XmlNode.elem "report" [] [cntMg, cntL1]

/-- The same report with the METHOD counter removed. -/
def rootML' : XmlNode := XmlNode.elem "report" [] [cntL1]

lemma findCounters_rootML : findCounters rootML = [cntMg, cntL1] := by
  simp [findCounters, rootML, cntMg, cntL1, childrenOf, descList, tagOf]

lemma findCounters_rootML' : findCounters rootML' = [cntL1] := by
  simp [findCounters, rootML', cntL1, childrenOf, descList, tagOf]

/-- A LINE counter whose `covered` attribute is not an integer. -/
def cntBad : XmlNode :=
  XmlNode.elem "counter" [("type", "LINE"), ("covered", "abc"), ("missed", "1")] []

/-- A report whose only counter has a malformed `covered` attribute. -/
def rootBad : XmlNode := XmlNode.elem "report" [] [cntBad]

lemma findCounters_rootBad : findCounters rootBad = [cntBad] := by
  simp [findCounters, rootBad, cntBad, childrenOf, descList, tagOf]

/-- C1: for every aggregate produced by the parser, a tracked metric and a
threshold in `[0, 1]`, the gate returns `true` exactly when the actual
coverage ratio of that metric is at least the threshold; in particular
exact equality passes. -/
theorem gate_passes_iff_fraction_ge_threshold (root : XmlNode) (cd : CoverageData)
    (th : ℚ) (metric : String)
    (hm : metric = "line" ∨ metric = "instruction" ∨ metric = "branch")
    (h0 : 0 ≤ th) (h1 : th ≤ 1)
    (hp : parse_jacoco_xml root = some cd) :
    check_coverage_threshold cd th metric = true ↔ coverage_fraction cd metric ≥ th := by
  obtain ⟨t, hpc, rfl⟩ := parse_some_elim root cd hp
  have h100 : (0 : ℚ) < 100 := by norm_num
  rcases hm with rfl | rfl | rfl
  · by_cases hpos : t.lc + t.lm > 0
    · simp [check_coverage_threshold, coverage_fraction, buildCoverageData, hpos]
    · simp [check_coverage_threshold, coverage_fraction, buildCoverageData, hpos]
      constructor
      · intro h
        linarith
      · intro h
        linarith
  · by_cases hpos : t.ic + t.im > 0
    · simp [check_coverage_threshold, coverage_fraction, buildCoverageData, hpos]
    · simp [check_coverage_threshold, coverage_fraction, buildCoverageData, hpos]
      constructor
      · intro h
        linarith
      · intro h
        linarith
  · by_cases hpos : t.bc + t.bm > 0
    · simp [check_coverage_threshold, coverage_fraction, buildCoverageData, hpos]
    · simp [check_coverage_threshold, coverage_fraction, buildCoverageData, hpos]
      constructor
      · intro h
        linarith
      · intro h
        linarith

/-- Witness for C1 at the empty report, metric `line`, threshold `0`. -/
theorem gate_passes_iff_fraction_ge_threshold_witness :
    ("line" = "line" ∨ "line" = "instruction" ∨ "line" = "branch") ∧
    (0 : ℚ) ≤ 0 ∧ (0 : ℚ) ≤ 1 ∧ parse_jacoco_xml rootE = some cdE ∧
    (check_coverage_threshold cdE 0 "line" = true ↔ coverage_fraction cdE "line" ≥ 0) :=
  ⟨Or.inl rfl, le_refl 0, by norm_num, parse_rootE,
    gate_passes_iff_fraction_ge_threshold rootE cdE 0 "line" (Or.inl rfl)
      (le_refl 0) (by norm_num) parse_rootE⟩

/-- C2: for every well-formed report the parser accepts, the covered and
missed totals of each tracked kind equal the sums of the `covered` and
`missed` attributes over all counter nodes of that kind anywhere in the
document, a missing attribute contributing `0`. -/
theorem parse_totals_eq_kind_sums (root : XmlNode) (cd : CoverageData)
    (hp : parse_jacoco_xml root = some cd) :
    cd.covered_instructions = kindCovered "INSTRUCTION" root ∧
    cd.total_instructions - cd.covered_instructions = kindMissed "INSTRUCTION" root ∧
    cd.covered_lines = kindCovered "LINE" root ∧
    cd.total_lines - cd.covered_lines = kindMissed "LINE" root ∧
    cd.covered_branches = kindCovered "BRANCH" root ∧
    cd.total_branches - cd.covered_branches = kindMissed "BRANCH" root := by
  obtain ⟨t, hpc, rfl⟩ := parse_some_elim root cd hp
  obtain ⟨e1, e2, e3, e4, e5, e6⟩ := processCounters_totals _ _ _ hpc
  simp at e1 e2 e3 e4 e5 e6
  simp only [buildCoverageData, kindCovered, kindMissed]
  refine ⟨e1, ?_, e3, ?_, e5, ?_⟩
  · rw [← e2]
    ring
  · rw [← e4]
    ring
  · rw [← e6]
    ring

/-- Witness for C2 at the empty report. -/
theorem parse_totals_eq_kind_sums_witness :
    parse_jacoco_xml rootE = some cdE ∧
    (cdE.covered_instructions = kindCovered "INSTRUCTION" rootE ∧
     cdE.total_instructions - cdE.covered_instructions = kindMissed "INSTRUCTION" rootE ∧
     cdE.covered_lines = kindCovered "LINE" rootE ∧
     cdE.total_lines - cdE.covered_lines = kindMissed "LINE" rootE ∧
     cdE.covered_branches = kindCovered "BRANCH" rootE ∧
     cdE.total_branches - cdE.covered_branches = kindMissed "BRANCH" rootE) :=
  ⟨parse_rootE, parse_totals_eq_kind_sums rootE cdE parse_rootE⟩

/-- C3: for every report the parser accepts in which all parsed covered and
missed counts are non-negative, every computed percentage lies in
`[0, 100]` (the ratio in `[0, 1]`), and is exactly `0` when the
corresponding total is `0`. -/
theorem parse_percentages_bounded (root : XmlNode) (cd : CoverageData)
    (hp : parse_jacoco_xml root = some cd)
    (hnn : ∀ c ∈ findCounters root,
      0 ≤ (pyInt (getAttr c "covered")).getD 0 ∧
      0 ≤ (pyInt (getAttr c "missed")).getD 0) :
    (0 ≤ cd.instruction_coverage ∧ cd.instruction_coverage ≤ 100) ∧
    (0 ≤ cd.line_coverage ∧ cd.line_coverage ≤ 100) ∧
    (0 ≤ cd.branch_coverage ∧ cd.branch_coverage ≤ 100) ∧
    (cd.total_instructions = 0 → cd.instruction_coverage = 0) ∧
    (cd.total_lines = 0 → cd.line_coverage = 0) ∧
    (cd.total_branches = 0 → cd.branch_coverage = 0) := by
  obtain ⟨t, hpc, rfl⟩ := parse_some_elim root cd hp
  obtain ⟨e1, e2, e3, e4, e5, e6⟩ := processCounters_totals _ _ _ hpc
  simp at e1 e2 e3 e4 e5 e6
  have hcovN : ∀ kind, 0 ≤ sumKindAttr kind "covered" (findCounters root) :=
    fun kind => sumKindAttr_nonneg kind "covered" _ (fun c hc => (hnn c hc).1)
  have hmisN : ∀ kind, 0 ≤ sumKindAttr kind "missed" (findCounters root) :=
    fun kind => sumKindAttr_nonneg kind "missed" _ (fun c hc => (hnn c hc).2)
  have hic : 0 ≤ t.ic := e1 ▸ hcovN "INSTRUCTION"
  have him : 0 ≤ t.im := e2 ▸ hmisN "INSTRUCTION"
  have hlc : 0 ≤ t.lc := e3 ▸ hcovN "LINE"
  have hlm : 0 ≤ t.lm := e4 ▸ hmisN "LINE"
  have hbc : 0 ≤ t.bc := e5 ▸ hcovN "BRANCH"
  have hbm : 0 ≤ t.bm := e6 ▸ hmisN "BRANCH"
  obtain ⟨pi1, pi2, pi3⟩ := pct_facts t.ic t.im hic him
  obtain ⟨pl1, pl2, pl3⟩ := pct_facts t.lc t.lm hlc hlm
  obtain ⟨pb1, pb2, pb3⟩ := pct_facts t.bc t.bm hbc hbm
  simp only [buildCoverageData]
  exact ⟨⟨pi1, pi2⟩, ⟨pl1, pl2⟩, ⟨pb1, pb2⟩, pi3, pl3, pb3⟩

/-- Witness for C3 at the empty report (no counters, so the non-negativity
hypothesis is vacuous). -/
theorem parse_percentages_bounded_witness :
    parse_jacoco_xml rootE = some cdE ∧
    (∀ c ∈ findCounters rootE,
      0 ≤ (pyInt (getAttr c "covered")).getD 0 ∧
      0 ≤ (pyInt (getAttr c "missed")).getD 0) ∧
    ((0 ≤ cdE.instruction_coverage ∧ cdE.instruction_coverage ≤ 100) ∧
     (0 ≤ cdE.line_coverage ∧ cdE.line_coverage ≤ 100) ∧
     (0 ≤ cdE.branch_coverage ∧ cdE.branch_coverage ≤ 100) ∧
     (cdE.total_instructions = 0 → cdE.instruction_coverage = 0) ∧
     (cdE.total_lines = 0 → cdE.line_coverage = 0) ∧
     (cdE.total_branches = 0 → cdE.branch_coverage = 0)) :=
  ⟨parse_rootE, by simp [findCounters_rootE],
    parse_percentages_bounded rootE cdE parse_rootE (by simp [findCounters_rootE])⟩

/-- C4: the exit code is always 0 or 1, and it is 0 exactly when the file
exists, the threshold is within `[0, 1]`, the report parses, the LINE
total is non-zero and the gate passes; every failure path yields 1. -/
theorem main_exit_code_iff (fe : Bool) (doc : Option XmlNode) (th : ℚ)
    (metric : String) (v : Bool) :
    ((main fe doc th metric v).exitCode = 0 ∨ (main fe doc th metric v).exitCode = 1) ∧
    ((main fe doc th metric v).exitCode = 0 ↔
      (fe = true ∧ (0 ≤ th ∧ th ≤ 1) ∧
        ∃ cd, doc.bind parse_jacoco_xml = some cd ∧ cd.total_lines ≠ 0 ∧
          check_coverage_threshold cd th metric = true)) := by
  cases fe with
  | false => simp [main]
  | true =>
    by_cases hr : 0 ≤ th ∧ th ≤ 1
    · cases hp : doc.bind parse_jacoco_xml with
      | none => simp [main, hr, hp]
      | some cd =>
        by_cases hz : cd.total_lines = 0
        · simp [main, hr, hp, hz]
        · cases hpass : check_coverage_threshold cd th metric
          · simp [main, hr, hp, hz, hpass]
          · simp [main, hr, hp, hz, hpass]
    · simp [main, hr]

/-- Evaluation of `main` on the empty report with the out-of-range
threshold `2`: the run stops at argument validation. -/
lemma main_rootE_two : main true (some rootE) 2 "line" false =
    ⟨1, [(OutChannel.stdout, Msg.thresholdOutOfRange)], false⟩ := by
  norm_num [main]

/-- C5 counterexample: the empty report parses with zero LINE total, yet
with threshold `2` the run prints a usage error and never the no-coverage
message, refuting "regardless of the threshold supplied". -/
theorem noCoverage_not_reported_out_of_range :
    parse_jacoco_xml rootE = some cdE ∧ cdE.total_lines = 0 ∧
    ¬ ((main true (some rootE) 2 "line" false).exitCode = 1 ∧
       (OutChannel.stdout, Msg.noCoverageData) ∈
         (main true (some rootE) 2 "line" false).events) := by
  refine ⟨parse_rootE, rfl, ?_⟩
  rw [main_rootE_two]
  simp

/-- C5 (amended): for every report that parses with a zero LINE total and
every threshold within `[0, 1]`, the run exits 1 and prints the
no-coverage message with its diagnostic hint. -/
theorem noCoverage_reported_within_range (fe : Bool) (doc : Option XmlNode)
    (th : ℚ) (metric : String) (v : Bool) (cd : CoverageData)
    (hfe : fe = true) (h0 : 0 ≤ th) (h1 : th ≤ 1)
    (hp : doc.bind parse_jacoco_xml = some cd) (hz : cd.total_lines = 0) :
    (main fe doc th metric v).exitCode = 1 ∧
    (OutChannel.stdout, Msg.noCoverageData) ∈ (main fe doc th metric v).events := by
  subst hfe
  simp [main, h0, h1, hp, hz]

/-- Witness for the amended C5 at the empty report with threshold `0`. -/
theorem noCoverage_reported_within_range_witness :
    (true = true) ∧ (0 : ℚ) ≤ 0 ∧ (0 : ℚ) ≤ 1 ∧
    (some rootE).bind parse_jacoco_xml = some cdE ∧ cdE.total_lines = 0 ∧
    ((main true (some rootE) 0 "line" false).exitCode = 1 ∧
     (OutChannel.stdout, Msg.noCoverageData) ∈
       (main true (some rootE) 0 "line" false).events) :=
  ⟨rfl, le_refl 0, by norm_num, parse_rootE, rfl,
    noCoverage_reported_within_range true (some rootE) 0 "line" false cdE rfl
      (le_refl 0) (by norm_num) parse_rootE rfl⟩

/-- C6 counterexample: with an existing report file and threshold `2`, the
usage error goes to standard output (Python `print`), not standard error;
the claim's "reported to standard error" fails. -/
theorem usage_error_on_stdout_not_stderr :
    (main true (some rootE) 2 "line" false).exitCode = 1 ∧
    (main true (some rootE) 2 "line" false).parseAttempted = false ∧
    (main true (some rootE) 2 "line" false).events =
      [(OutChannel.stdout, Msg.thresholdOutOfRange)] ∧
    (OutChannel.stderr, Msg.thresholdOutOfRange) ∉
      (main true (some rootE) 2 "line" false).events := by
  rw [main_rootE_two]
  simp

/-- C6 (amended): for every invocation with an existing report file and a
threshold outside `[0, 1]`, the run exits 1, reports the usage error to
standard output, and never parses the report. -/
theorem usage_error_exits_without_parsing (fe : Bool) (doc : Option XmlNode)
    (th : ℚ) (metric : String) (v : Bool)
    (hfe : fe = true) (hr : ¬ (0 ≤ th ∧ th ≤ 1)) :
    main fe doc th metric v =
      ⟨1, [(OutChannel.stdout, Msg.thresholdOutOfRange)], false⟩ := by
  subst hfe
  simp [main, hr]

/-- Witness for the amended C6 at threshold `2`. -/
theorem usage_error_exits_without_parsing_witness :
    (true = true) ∧ ¬ ((0 : ℚ) ≤ 2 ∧ (2 : ℚ) ≤ 1) ∧
    main true (some rootE) 2 "line" false =
      ⟨1, [(OutChannel.stdout, Msg.thresholdOutOfRange)], false⟩ :=
  ⟨rfl, by norm_num,
    usage_error_exits_without_parsing true (some rootE) 2 "line" false rfl (by norm_num)⟩

/-- The gate fails on `rootL` (0% line coverage) at threshold `1`. -/
lemma check_cdL_one : check_coverage_threshold cdL 1 "line" = false := by
  norm_num [check_coverage_threshold, cdL]

/-- Evaluation of `main` on `rootL` at threshold `1` without `--verbose`:
the gate fails and the full report is not printed. -/
lemma main_rootL_one : main true (some rootL) 1 "line" false =
    ⟨1, [(OutChannel.stdout, Msg.analyzing), (OutChannel.stdout, Msg.gateFailed)], true⟩ := by
  have hb : (some rootL).bind parse_jacoco_xml = some cdL := parse_rootL
  have hz : ¬ (cdL.total_lines = 0) := by decide
  norm_num [main, hb, hz, check_cdL_one]

/-- C7 counterexample: on a parsed report with one missed line, threshold
`1` and no `--verbose`, the gate fails yet the full coverage report is not
printed, refuting "printed exactly when the gate fails or zero coverage". -/
theorem report_not_printed_on_gate_failure :
    (some rootL).bind parse_jacoco_xml = some cdL ∧
    check_coverage_threshold cdL 1 "line" = false ∧
    (OutChannel.stdout, Msg.coverageReport) ∉
      (main true (some rootL) 1 "line" false).events := by
  refine ⟨parse_rootL, check_cdL_one, ?_⟩
  rw [main_rootL_one]
  simp

/-- C7 (amended): for every successfully parsed report, the full coverage
report is printed when `--verbose` is given; without it, the report is
printed exactly when the LINE total is zero (a failing gate alone does not
print it). -/
theorem report_printed_iff_verbose_or_zero_lines (fe : Bool)
    (doc : Option XmlNode) (th : ℚ) (metric : String) (v : Bool)
    (cd : CoverageData)
    (hfe : fe = true) (h0 : 0 ≤ th) (h1 : th ≤ 1)
    (hp : doc.bind parse_jacoco_xml = some cd) :
    ((OutChannel.stdout, Msg.coverageReport) ∈ (main fe doc th metric v).events ↔
      (v = true ∨ cd.total_lines = 0)) := by
  subst hfe
  by_cases hz : cd.total_lines = 0
  · simp [main, h0, h1, hp, hz]
  · cases v <;> cases hpass : check_coverage_threshold cd th metric <;>
      simp [main, h0, h1, hp, hz, hpass]

/-- Witness for the amended C7 at the empty report, threshold `0`, no
`--verbose`. -/
theorem report_printed_iff_verbose_or_zero_lines_witness :
    (true = true) ∧ (0 : ℚ) ≤ 0 ∧ (0 : ℚ) ≤ 1 ∧
    (some rootE).bind parse_jacoco_xml = some cdE ∧
    ((OutChannel.stdout, Msg.coverageReport) ∈
        (main true (some rootE) 0 "line" false).events ↔
      (false = true ∨ cdE.total_lines = 0)) :=
  ⟨rfl, le_refl 0, by norm_num, parse_rootE,
    report_printed_iff_verbose_or_zero_lines true (some rootE) 0 "line" false cdE
      rfl (le_refl 0) (by norm_num) parse_rootE⟩

/-- C8 counterexample: a report containing a counter of the untracked kind
METHOD whose `covered` attribute is not an integer does not parse — the
node is an error, refuting "parsing succeeds" as universally stated. -/
theorem untracked_counter_can_fail_parse :
    tagOf cntM = "counter" ∧
    cntM ∈ findCounters rootM ∧
    getAttr cntM "type" = some "METHOD" ∧
    parse_jacoco_xml rootM = none := by
  refine ⟨rfl, ?_, rfl, ?_⟩
  · rw [findCounters_rootM]
    exact List.mem_singleton.mpr rfl
  · unfold parse_jacoco_xml
    rw [findCounters_rootM]
    rfl

/-- C8 (amended): a counter node of a kind other than INSTRUCTION, LINE
and BRANCH whose `covered` and `missed` attributes are absent or valid
integers is ignored: removing it from the document's counter sequence
leaves the parse result unchanged, so it contributes nothing to any
tracked total and parsing succeeds whenever the rest does. -/
theorem untracked_counters_ignored (root root' : XmlNode) (xs ys : List XmlNode)
    (c : XmlNode)
    (h1 : findCounters root = xs ++ c :: ys)
    (h2 : findCounters root' = xs ++ ys)
    (hI : getAttr c "type" ≠ some "INSTRUCTION")
    (hL : getAttr c "type" ≠ some "LINE")
    (hB : getAttr c "type" ≠ some "BRANCH")
    (hcv : pyInt (getAttr c "covered") ≠ none)
    (hms : pyInt (getAttr c "missed") ≠ none) :
    parse_jacoco_xml root = parse_jacoco_xml root' := by
  unfold parse_jacoco_xml
  rw [h1, h2, processCounters_insert c ys
    (fun t => processCounter_untracked t c hI hL hB hcv hms)]

/-- Witness for the amended C8: a METHOD counter with integer attributes
next to a LINE counter parses identically to the report without it. -/
theorem untracked_counters_ignored_witness :
    findCounters rootML = [] ++ cntMg :: [cntL1] ∧
    findCounters rootML' = [] ++ [cntL1] ∧
    getAttr cntMg "type" ≠ some "INSTRUCTION" ∧
    getAttr cntMg "type" ≠ some "LINE" ∧
    getAttr cntMg "type" ≠ some "BRANCH" ∧
    pyInt (getAttr cntMg "covered") ≠ none ∧
    pyInt (getAttr cntMg "missed") ≠ none ∧
    parse_jacoco_xml rootML = parse_jacoco_xml rootML' :=
  ⟨findCounters_rootML, findCounters_rootML', by decide, by decide, by decide,
    by decide, by decide,
    untracked_counters_ignored rootML rootML' [] [cntL1] cntMg
      findCounters_rootML findCounters_rootML' (by decide) (by decide) (by decide)
      (by decide) (by decide)⟩

/-- C9: the parse-and-aggregate function is deterministic — equal reports
yield equal aggregate results. -/
theorem parse_deterministic (r1 r2 : XmlNode) (h : r1 = r2) :
    parse_jacoco_xml r1 = parse_jacoco_xml r2 := by
  rw [h]

/-- Witness for C9 at the empty report. -/
theorem parse_deterministic_witness :
    rootE = rootE ∧ parse_jacoco_xml rootE = parse_jacoco_xml rootE :=
  ⟨rfl, parse_deterministic rootE rootE rfl⟩

/-- C10: a counter node whose `covered` or `missed` attribute is present
but not a valid integer makes parsing fail (no aggregate result) and the
program exit with code 1 — it is not ignored or zeroed. -/
theorem bad_int_attr_fails_parse (root : XmlNode) (c : XmlNode) (th : ℚ)
    (metric : String) (v : Bool)
    (hmem : c ∈ findCounters root)
    (hbad : pyInt (getAttr c "covered") = none ∨ pyInt (getAttr c "missed") = none)
    (h0 : 0 ≤ th) (h1 : th ≤ 1) :
    parse_jacoco_xml root = none ∧
    (main true (some root) th metric v).exitCode = 1 := by
  have hpn : parse_jacoco_xml root = none := by
    unfold parse_jacoco_xml
    rw [processCounters_isNone (findCounters root) c hmem hbad _]
  refine ⟨hpn, ?_⟩
  simp [main, h0, h1, hpn]

/-- Witness for C10: a LINE counter with `covered="abc"`. -/
theorem bad_int_attr_fails_parse_witness :
    cntBad ∈ findCounters rootBad ∧
    (pyInt (getAttr cntBad "covered") = none ∨
      pyInt (getAttr cntBad "missed") = none) ∧
    (0 : ℚ) ≤ 0 ∧ (0 : ℚ) ≤ 1 ∧
    (parse_jacoco_xml rootBad = none ∧
      (main true (some rootBad) 0 "line" false).exitCode = 1) :=
  ⟨by simp [findCounters_rootBad], Or.inl (by decide), le_refl 0, by norm_num,
    bad_int_attr_fails_parse rootBad cntBad 0 "line" false
      (by simp [findCounters_rootBad]) (Or.inl (by decide)) (le_refl 0) (by norm_num)⟩

end CheckCoverage
